import Mathlib

/-
Shallow embedding of the Terminal starter-kit spatial analysis engine:
`Region` (canonical revision `python-algov1-1/region.py`) and `Defense`
(`python-algov2-0/defense.py`) of the C1GamesStarterKit repository.

Conventions of the embedding:
* The backing numpy arrays (`grid_type`, `grid_unit`, `damage_regions`) are
  stored bounds-offset in the source and every access goes through
  `zero_coordinates`, which subtracts the region's lower-left bound.  The
  offset is a bijection applied uniformly at every read and write, so the
  embedding indexes those stores by map coordinates directly and models them
  as total functions; accesses in the source are always guarded by bounds
  checks or iterate sets of in-bounds coordinates.
* Python `set` objects are modelled as duplicate-free lists in a canonical
  enumeration order (program construction order); the source's iteration
  order over a set is unspecified, and no modelled result depends on it
  beyond the enumeration order of inventory lists.
* Fallible Python operations (TypeError, IndexError, ZeroDivisionError,
  unbound names, missing dict keys) are modelled with `Except PyErr`.
* The stringly-typed unit kinds looked up through `unit_enum_map` are
  modelled by the closed enumeration `UnitType`.
-/

/-- Python runtime errors that the embedded code can raise. -/
inductive PyErr where
  | typeError
  | indexError
  | keyError
  | attributeError
  | nameError
  | zeroDivisionError
  | fuelExhausted
deriving DecidableEq, Repr

/-- Closed enumeration of unit kinds (the source compares
`unit.unit_type` against values of the runtime `unit_enum_map`). -/
inductive UnitType where
  | TURRET
  | FACTORY
  | WALL
  | SCOUT
  | DEMOLISHER
  | INTERCEPTOR
deriving DecidableEq, Repr

/-- A stationary `gamelib.GameUnit`: the fields of the snapshot that the
region/defense code reads. -/
structure GameUnit where
  unit_type : UnitType
  x : ℤ
  y : ℤ
  health : ℚ
  max_health : ℚ
  cost : ℚ
  upgraded : Bool
  attackRange : ℚ
  damage_i : ℚ
deriving DecidableEq, Repr

/-- A map coordinate. -/
abbrev Coord : Type := ℤ × ℤ

/-- A `gamelib.GameMap` snapshot: `map[x, y]` yields the list of units on the
tile (empty when unoccupied). -/
abbrev GameMap : Type := Coord → List GameUnit

/-- The `units` inventory dictionary of a region: one ordered list per
structure kind, in the source's key insertion order TURRET, FACTORY, WALL. -/
structure UnitInventory where
  turret : List GameUnit
  factory : List GameUnit
  wall : List GameUnit
deriving Repr

/-- A dynamically typed Python value: the BFS code of the source builds
heterogeneous lists (paths whose elements are coordinate lists, and — through
the bug in `queue.append([path + above])` — flattened lists mixing coordinate
lists with bare integers), and stores `reversed(...)` iterator objects in the
path dictionary. -/
inductive PVal where
  | pint (n : ℤ)
  | plist (xs : List PVal)
  | revIter (xs : List PVal)

/-- `path_dict` write log: the source's dict-of-dicts is initialized with an
empty-list entry for every (boundary, boundary) pair; the embedding keeps the
writes (newest first) and `dictGet` falls back to the initial `[]`. -/
abbrev PathDict : Type := List (Coord × Coord × PVal)

/-- Read `path_dict[s][e]`: the most recent write, or the initial `[]`. -/
def dictGet (d : PathDict) (s e : Coord) : PVal :=
  match d.find? (fun ent => ent.1 == s && ent.2.1 == e) with
  | some ent => ent.2.2
  | none => PVal.plist []

/-- Write `path_dict[s][e] = v` (newest write shadows older ones). -/
def dictSet (d : PathDict) (s e : Coord) (v : PVal) : PathDict :=
  (s, e, v) :: d

/-- Python truthiness of the values the source stores in `path_dict`:
a list is truthy when nonempty, an int when nonzero, and a `reversed`
iterator object is always truthy. -/
def truthy : PVal → Bool
  | .pint n => n != 0
  | .plist xs => !xs.isEmpty
  | .revIter _ => true

/-- The per-region statistics dictionary written by
`calculate_region_states` (fixed string keys modelled as fields). -/
structure RegionStates where
  avg_tile_dmg : ℚ
  region_cost_all : ℚ
  region_cost_def : ℚ
  overall_health_all : ℚ
  overall_health_def : ℚ
  undefended : List Coord

/-- The mutable state of a `Region` object. -/
structure Region where
  vertices : List Coord
  player_id : ℤ
  incoming_edges : List (Coord × Coord)
  outgoing_edges : List (Coord × Coord)
  breach_edges : List (Coord × Coord)
  xbounds : ℤ × ℤ
  ybounds : ℤ × ℤ
  /-- the `all_boundaries` set: lattice points of all polygon edges. -/
  all_boundaries : List Coord
  /-- the `coordinates` set as it stands when `tile_count` is recorded:
  INTERIOR tiles only. -/
  interior : List Coord
  /-- the `coordinates` set after `union(all_boundaries)`. -/
  coordinates : List Coord
  tile_count : ℕ
  grid_type : Coord → ℤ
  grid_unit : Coord → Option GameUnit
  damage_regions : Coord → ℚ
  units : UnitInventory
  recalculate_paths : Bool
  path_dict : PathDict
  /-- the `states` attribute, absent until `calculate_region_states` runs. -/
  states : Option RegionStates

/-- Integer range `[lo, hi]` as a list (the iteration
`range(lo, hi + 1)` of the source). -/
def rangeInt (lo hi : ℤ) : List ℤ :=
  (List.range (hi + 1 - lo).toNat).map (fun i : ℕ => lo + (i : ℤ))

/-- `Region.edge_coordinates`: lattice points along an edge.  The source
swaps endpoints so the start has the smaller x, then branches on equal x
(steps along y), equal y (steps along x), and otherwise assumes a 45-degree
diagonal, stepping both axes by one with the y-direction given by the sign
of the slope.  `ec_branches` is the branch body after the endpoint swap. -/
def ec_branches (s f : Coord) : List Coord :=
  if s.1 = f.1 then
    (List.range ((f.2 - s.2).natAbs + 1)).map (fun i : ℕ => (s.1, min s.2 f.2 + (i : ℤ)))
  else if s.2 = f.2 then
    (List.range ((f.1 - s.1).natAbs + 1)).map (fun i : ℕ => (min s.1 f.1 + (i : ℤ), s.2))
  else if 0 < f.2 - s.2 then
    (List.range (f.2 - s.2 + 1).toNat).map (fun i : ℕ => (s.1 + (i : ℤ), s.2 + (i : ℤ)))
  else
    (List.range (s.2 - f.2 + 1).toNat).map (fun i : ℕ => (s.1 + (i : ℤ), s.2 - (i : ℤ)))

/-- `Region.edge_coordinates`: the endpoint swap (`if finish[0] < start[0]`)
followed by the four branches. -/
def edge_coordinates (edge : Coord × Coord) : List Coord :=
  if edge.2.1 < edge.1.1 then ec_branches edge.2 edge.1 else ec_branches edge.1 edge.2

/-- One iteration of the `point_inside_polygon` ray-casting loop: toggle the
`inside` flag when the horizontal ray from `(x, y)` crosses the edge
`(p1, p2)`.  In the reachable branch `p1.2 ≠ p2.2` holds (the y-window test
fails on horizontal edges), so the interpolated crossing `xinters` is always
well defined; the division is exact rational arithmetic, as in Python. -/
def pipToggle (x y : ℤ) (p1 p2 : Coord) : Bool :=
  decide (min p1.2 p2.2 < y ∧ y ≤ max p1.2 p2.2 ∧ x ≤ max p1.1 p2.1 ∧
    (p1.1 = p2.1 ∨
      (x : ℚ) ≤ ((y : ℚ) - (p1.2 : ℚ)) * ((p2.1 : ℚ) - (p1.1 : ℚ)) /
        ((p2.2 : ℚ) - (p1.2 : ℚ)) + (p1.1 : ℚ)))

/-- Fold of `pipToggle` over the edge pairs visited by the source loop. -/
def pipAux (x y : ℤ) : List (Coord × Coord) → Bool → Bool
  | [], acc => acc
  | (p1, p2) :: rest, acc =>
      pipAux x y rest (if pipToggle x y p1 p2 then !acc else acc)

/-- `Region.point_inside_polygon`: ray casting with `n + 1` iterations whose
first compares `poly[0]` with itself (a no-op, since the y-window test fails
on a degenerate edge) and whose remaining iterations walk consecutive vertex
pairs, wrapping around to `poly[0]`. -/
def point_inside_polygon (x y : ℤ) (poly : List Coord) : Bool :=
  match poly with
  | [] => false
  | p0 :: _ => pipAux x y ((p0, p0) :: poly.zip (poly.drop 1 ++ [p0])) false

/-- Minimum of a nonempty list (`min(...)` over a Python generator); the
empty case is unreachable at every call site. -/
def minList : List ℤ → ℤ
  | [] => 0
  | x :: xs => xs.foldl min x

/-- Maximum of a nonempty list. -/
def maxList : List ℤ → ℤ
  | [] => 0
  | x :: xs => xs.foldl max x

/-- Build a Python set as a duplicate-free list, keeping first occurrences. -/
def dedupKeepFirst (l : List Coord) : List Coord :=
  l.foldl (fun acc c => if c ∈ acc then acc else acc ++ [c]) []

/-- Modelled from the spec: `gamelib.GameMap.get_locations_in_range` — the
`gamelib` starter library is not part of the repository sources; per the
spec (section 4.3) it enumerates all board tiles within the given attack
radius of a location.  The board is the bounded 28-wide coordinate space of
section 3. -/
def get_locations_in_range (loc : Coord) (radius : ℚ) : List Coord :=
  ((rangeInt 0 27).flatMap (fun x => (rangeInt 0 27).map (fun y => ((x, y) : Coord)))).filter
    (fun c => decide (((c.1 : ℚ) - (loc.1 : ℚ)) ^ 2 + ((c.2 : ℚ) - (loc.2 : ℚ)) ^ 2 ≤ radius ^ 2))

/-- `Region.calculate_local_damage_regions`: add every in-bounds tile in each
turret's attack radius to the damage field; returns immediately when the
game map is `None`.  Note the source only ever adds — it never re-zeroes
`damage_regions`. -/
def calculate_local_damage_regions (r : Region) (game_map : Option GameMap) : Region :=
  match game_map with
  | none => r
  | some _ =>
    let dmg := r.units.turret.foldl (fun d turret =>
      (get_locations_in_range (turret.x, turret.y) turret.attackRange).foldl
        (fun d coord =>
          if r.xbounds.2 ≥ coord.1 ∧ coord.1 ≥ r.xbounds.1 ∧
              r.ybounds.2 ≥ coord.2 ∧ coord.2 ≥ r.ybounds.1 then
            fun c => if c = coord then d coord + turret.damage_i else d c
          else d) d) r.damage_regions
    { r with damage_regions := dmg }

/-- The `all_boundaries` set of `Region.__init__`: lattice interpolation of
every consecutive polygon edge (wrapping), de-duplicated (a Python set). -/
def polygon_boundaries (vertices : List Coord) : List Coord :=
  dedupKeepFirst ((List.range vertices.length).flatMap (fun i =>
    edge_coordinates (vertices.getD i (0, 0), vertices.getD ((i + 1) % vertices.length) (0, 0))))

/-- The bounds-box raster order of `Region.__init__`: y ascending in the
outer loop, x ascending in the inner loop. -/
def boxList (xb yb : ℤ × ℤ) : List Coord :=
  (rangeInt yb.1 yb.2).flatMap (fun y => (rangeInt xb.1 xb.2).map (fun x => ((x, y) : Coord)))

/-- `Region.__init__`: compute bounds from vertex extrema, the boundary set
from lattice interpolation of all consecutive polygon edges, the interior
set by ray casting over the bounds box (y outer loop ascending, x inner),
`tile_count` as the interior count before the union with the boundary set,
an all-`None` occupant grid, a zero damage field, empty inventories, and
finally run `calculate_local_damage_regions` (a no-op here when the map is
`None` or because the inventories are still empty).  The source ignores its
`damage_regions` parameter in this revision and always allocates zeros.
The `self[coord][0] = 0` loop after the union writes into the temporary
list built by `__getitem__` and changes nothing. -/
def mkRegion (vertices : List Coord) (player_id : ℤ)
    (incoming_edges outgoing_edges breach_edges : List (Coord × Coord))
    (map : Option GameMap) : Region :=
  let xb : ℤ × ℤ := (minList (vertices.map Prod.fst), maxList (vertices.map Prod.fst))
  let yb : ℤ × ℤ := (minList (vertices.map Prod.snd), maxList (vertices.map Prod.snd))
  let bnd := polygon_boundaries vertices
  let box := boxList xb yb
  let inner := box.filter (fun c =>
    decide (¬ c ∈ bnd) && point_inside_polygon c.1 c.2 vertices)
  let r : Region :=
    { vertices := vertices
      player_id := player_id
      incoming_edges := incoming_edges
      outgoing_edges := outgoing_edges
      breach_edges := breach_edges
      xbounds := xb
      ybounds := yb
      all_boundaries := bnd
      interior := inner
      coordinates := inner ++ bnd
      tile_count := inner.length
      grid_type := fun c =>
        if xb.1 ≤ c.1 ∧ c.1 ≤ xb.2 ∧ yb.1 ≤ c.2 ∧ c.2 ≤ yb.2 then
          if c ∈ bnd then 0
          else if point_inside_polygon c.1 c.2 vertices then 1
          else -1
        else -1
      grid_unit := fun _ => none
      damage_regions := fun _ => 0
      units := ⟨[], [], []⟩
      recalculate_paths := true
      path_dict := []
      states := none }
  calculate_local_damage_regions r map

unseal Rat.add Rat.mul Rat.sub Rat.inv

/-- `Region.zero_coordinates`: offset a map coordinate into the backing
store's indexing.  The embedding's stores are map-coordinate indexed (the
offset is applied uniformly at every access in the source), so this is
documentation of the bijection rather than an operation on the stores. -/
def zero_coordinates (r : Region) (coord : Coord) : Coord :=
  (coord.1 - r.xbounds.1, coord.2 - r.ybounds.1)

/-- `Region.in_bounds`. -/
def in_bounds (r : Region) (coords : Coord) : Bool :=
  decide (r.xbounds.1 ≤ coords.1 ∧ coords.1 ≤ r.xbounds.2 ∧
    r.ybounds.1 ≤ coords.2 ∧ coords.2 ≤ r.ybounds.2)

/-- Body of the `update_structures` scan for one coordinate: skip OUTSIDE
tiles; on an empty map tile the source executes
`self[coord[0], coord[1]][1] = None`, which assigns into the fresh
two-element list returned by `__getitem__` — the stored occupant grid is
NOT changed; on an occupied tile, append the unit to its kind's inventory
list and store it in the occupant grid. -/
def scanTile (m : GameMap) (r : Region) (coord : Coord) : Region :=
  if r.grid_type coord = -1 then r
  else
    match (m coord).head? with
    | none => r
    | some u =>
      match u.unit_type with
      | .TURRET =>
        { r with units := { r.units with turret := r.units.turret ++ [u] },
                 grid_unit := fun c => if c = coord then some u else r.grid_unit c }
      | .FACTORY =>
        { r with units := { r.units with factory := r.units.factory ++ [u] },
                 grid_unit := fun c => if c = coord then some u else r.grid_unit c }
      | .WALL =>
        { r with units := { r.units with wall := r.units.wall ++ [u] },
                 grid_unit := fun c => if c = coord then some u else r.grid_unit c }
      | _ => r

/-- `Region.update_structures`: scan every region coordinate against the map
snapshot and set `recalculate_paths`.  Note the source never clears the
`units` inventory lists before appending. -/
def update_structures (r : Region) (m : GameMap) : Region :=
  { r.coordinates.foldl (scanTile m) r with recalculate_paths := true }

/-- `Region.update_damage_regions`: replace the damage field by the slice of
a full-board array; slicing by `bounds` and indexing by `zero_coordinates`
compose to plain map-coordinate indexing. -/
def update_damage_regions (r : Region) (damage : Coord → ℚ) : Region :=
  { r with damage_regions := damage }

/-- `Region.undefended_tiles`: region coordinates whose damage field is 0.
The iteration is over `self.coordinates`, which includes the boundary
tiles. -/
def undefended_tiles (r : Region) : List Coord :=
  r.coordinates.filter (fun c => r.damage_regions c == 0)

/-- `Region.average_tile_damage`: the damage field summed over
`self.coordinates` (interior AND boundary tiles), divided by `tile_count`
(the interior count); Python raises ZeroDivisionError when
`tile_count = 0`, modelled as `none`. -/
def average_tile_damage (r : Region) : Option ℚ :=
  let total := (r.coordinates.map (fun c => r.damage_regions c)).sum
  if r.tile_count = 0 then none else some (total / (r.tile_count : ℚ))

/-- The `self.units.values()` iteration order (dict insertion order:
TURRET, FACTORY, WALL). -/
def allUnitsList (u : UnitInventory) : List GameUnit :=
  u.turret ++ u.factory ++ u.wall

/-- `Region.calculate_region_cost`. -/
def calculate_region_cost (r : Region) (health_prorated defensive_only : Bool) : ℚ :=
  (allUnitsList r.units).foldl (fun cost u =>
    if defensive_only ∧ u.unit_type = .FACTORY then cost
    else if health_prorated then cost + (u.health / u.max_health) * u.cost
    else cost + u.cost) 0

/-- `Region.calculate_overall_health`. -/
def calculate_overall_health (r : Region) (defensive_only : Bool) : ℚ :=
  (allUnitsList r.units).foldl (fun health u =>
    if defensive_only ∧ u.unit_type = .FACTORY then health
    else health + u.health) 0

/-- `Region.calculate_region_states`: cache the statistics dictionary; the
`average_tile_damage` call propagates ZeroDivisionError when the region has
no interior tiles. -/
def calculate_region_states (r : Region) : Except PyErr Region :=
  match average_tile_damage r with
  | none => .error .zeroDivisionError
  | some avg =>
    .ok { r with states := some {
        avg_tile_dmg := avg
        region_cost_all := calculate_region_cost r true false
        region_cost_def := calculate_region_cost r true true
        overall_health_all := calculate_overall_health r false
        overall_health_def := calculate_overall_health r true
        undefended := undefended_tiles r } }

/-- Python `v[i]` on a dynamic value: lists index, everything else raises
TypeError (ints are not subscriptable, nor are `reversed` iterators). -/
def pyGet (v : PVal) (i : ℕ) : Except PyErr PVal :=
  match v with
  | .plist xs =>
    match xs[i]? with
    | some x => .ok x
    | none => .error .indexError
  | _ => .error .typeError

/-- Python `v + k` for an int `k`: raises TypeError unless `v` is an int. -/
def pyAddInt (v : PVal) (k : ℤ) : Except PyErr ℤ :=
  match v with
  | .pint n => .ok (n + k)
  | _ => .error .typeError

/-- Python `v[-1]` on a dynamic value. -/
def pyLast (v : PVal) : Except PyErr PVal :=
  match v with
  | .plist xs =>
    match xs.getLast? with
    | some x => .ok x
    | none => .error .indexError
  | _ => .error .typeError

/-- State threaded through the neighbor loop of one BFS dequeue:
the (mutated) element list of the current path, the visited set, the path
dictionary, and the items appended to the queue. -/
structure BfsAdjState where
  pathElems : List PVal
  visited : List Coord
  dict : PathDict
  enq : List PVal

/-- The `for adj in adjacents` body of `Region.bfs` (revision
`python-algov1-1`), for neighbors that are in bounds and already reduced to
integer pairs (the four adjacents are built from `s[0]` and `s[1]`, which
must already be ints for their construction to have succeeded):
* mark the neighbor visited when its tile type is not OUTSIDE and it is not
  yet visited;
* `if self[adj][1] is None: continue` — an UNOCCUPIED neighbor is skipped
  entirely (only tiles holding a structure are recorded or expanded);
* a boundary neighbor appends `above` (not `adj`!) to the current path and
  records the path and a `reversed(...)` iterator of it in the dictionary
  (the source stores references to the still-mutable path list; the
  embedding stores its current value, which only differs when several
  recordings happen in one dequeue);
* any other neighbor appends `[path + above]` to the queue — the list
  concatenation `path + above` flattens the two coordinates of `above` into
  the path, and the extra bracket nests the result. -/
def bfs_adj (r : Region) (start : Coord) (above : Coord) :
    List Coord → BfsAdjState → BfsAdjState
  | [], st => st
  | adj :: rest, st =>
    if r.xbounds.1 ≤ adj.1 ∧ adj.1 ≤ r.xbounds.2 ∧
        r.ybounds.1 ≤ adj.2 ∧ adj.2 ≤ r.ybounds.2 then
      let vis :=
        if 0 ≤ r.grid_type adj ∧ ¬ adj ∈ st.visited then st.visited ++ [adj]
        else st.visited
      if r.grid_unit adj = none then
        bfs_adj r start above rest { st with visited := vis }
      else if r.grid_type adj = 0 then
        let pathElems := st.pathElems ++ [PVal.plist [PVal.pint above.1, PVal.pint above.2]]
        let dict := dictSet (dictSet st.dict start adj (PVal.plist pathElems))
          adj start (PVal.revIter pathElems)
        bfs_adj r start above rest { pathElems := pathElems, visited := vis, dict := dict, enq := st.enq }
      else
        let enq := st.enq ++ [PVal.plist [PVal.plist
          (st.pathElems ++ [PVal.pint above.1, PVal.pint above.2])]]
        bfs_adj r start above rest { st with visited := vis, enq := enq }
    else
      bfs_adj r start above rest st

/-- The `while queue` loop of `Region.bfs`, with explicit fuel (the source's
termination is not structural: occupied tiles are re-processed without a
visited guard).  Each iteration pops the front path, reads its last element
`s`, builds the four adjacents — raising TypeError exactly where Python
does, when `s[1] + 1` (in `above`) or `s[0] + 1` (in `right`) is applied to
a non-int, and IndexError when `s` is an empty list — and runs the neighbor
loop. -/
def bfs_loop (r : Region) (start : Coord) :
    ℕ → List PVal → List Coord → PathDict → Except PyErr (List Coord × PathDict)
  | _, [], visited, dict => .ok (visited, dict)
  | 0, _ :: _, _, _ => .error .fuelExhausted
  | fuel + 1, pq :: rest, visited, dict =>
    match pyLast pq with
    | .error e => .error e
    | .ok s =>
      match pq with
      | .plist pathElems =>
        match pyGet s 0, pyGet s 1 with
        | .error e, _ => .error e
        | _, .error e => .error e
        | .ok s0v, .ok s1v =>
          match pyAddInt s1v 1 with
          | .error e => .error e
          | .ok s1succ =>
            match pyAddInt s0v 1 with
            | .error e => .error e
            | .ok s0succ =>
              let s0 := s0succ - 1
              let s1 := s1succ - 1
              let above : Coord := (s0, s1 + 1)
              let adjacents : List Coord := [above, (s0, s1 - 1), (s0 + 1, s1), (s0 - 1, s1)]
              let st := bfs_adj r start above adjacents
                { pathElems := pathElems, visited := visited, dict := dict, enq := [] }
              bfs_loop r start fuel (rest ++ st.enq) st.visited st.dict
      | _ => .error .typeError

/-- `Region.bfs`: seed the queue with `[[list(start)]]`, mark the start
visited, and run the loop. -/
def bfs (r : Region) (start : Coord) (visited : List Coord) (dict : PathDict)
    (fuel : ℕ) : Except PyErr (List Coord × PathDict) :=
  bfs_loop r start fuel [PVal.plist [PVal.plist [PVal.pint start.1, PVal.pint start.2]]]
    (if start ∈ visited then visited else visited ++ [start]) dict

/-- The entrance lattice points of the incoming edges, in loop order. -/
def entrances (r : Region) : List Coord :=
  r.incoming_edges.flatMap edge_coordinates

/-- `Region.calculate_paths`: when `recalculate_paths` is set, re-initialize
`path_dict` (all entries `[]`) and run one BFS per entrance lattice point of
every incoming edge, each with a fresh all-false visited array.  The flag is
NOT cleared afterwards. -/
def calculate_paths (r : Region) (fuel : ℕ) : Except PyErr Region :=
  if r.recalculate_paths then
    match (entrances r).foldlM (fun d ent =>
        match bfs r ent [] d fuel with
        | .error e => (Except.error e : Except PyErr PathDict)
        | .ok (_, d2) => Except.ok d2) ([] : PathDict) with
    | .error e => .error e
    | .ok dict => .ok { r with path_dict := dict }
  else .ok r

/-- `Region.damage_on_path`: sum `damage_regions[zero_coordinates(coord)]
* 1 / unit_speed` over the path's entries; iterating a stored `reversed`
object yields the recorded list backwards, and each entry must be an
indexable pair of ints. -/
def damage_on_path (r : Region) (unit_speed : ℚ) (path : PVal) : Except PyErr ℚ :=
  match path with
  | .pint _ => .error .typeError
  | .plist xs => damage_on_path_go r unit_speed xs 0
  | .revIter xs => damage_on_path_go r unit_speed xs.reverse 0
where
  /-- the `for coord in path` loop. -/
  damage_on_path_go (r : Region) (unit_speed : ℚ) : List PVal → ℚ → Except PyErr ℚ
    | [], acc => .ok acc
    | c :: rest, acc =>
      match pyGet c 0, pyGet c 1 with
      | .error e, _ => .error e
      | _, .error e => .error e
      | .ok cx, .ok cy =>
        match cx, cy with
        | .pint a, .pint b =>
          damage_on_path_go r unit_speed rest (acc + r.damage_regions (a, b) * 1 / unit_speed)
        | _, _ => .error .typeError

/-- `Region.simulate_average_damage`: recompute paths, pick the speed for
the three supported mobile kinds (any other kind leaves `speed` unbound —
NameError), then walk `path_dict[entrance].values()` for every entrance of
every incoming edge, counting and accumulating damage over the truthy
paths; returns 0 when no paths were found, otherwise the average.  The
`.values()` iteration order is the inner dict's key insertion order, i.e.
the `all_boundaries` enumeration. -/
def simulate_average_damage (r : Region) (u : UnitType) (fuel : ℕ) : Except PyErr ℚ :=
  match calculate_paths r fuel with
  | .error e => .error e
  | .ok r2 =>
    match (match u with
      | .DEMOLISHER => Except.ok (2 : ℚ)
      | .SCOUT => Except.ok (1 : ℚ)
      | .INTERCEPTOR => Except.ok (4 : ℚ)
      | _ => (Except.error PyErr.nameError : Except PyErr ℚ)) with
    | .error e => .error e
    | .ok speed =>
      let found := ((entrances r2).flatMap (fun ent =>
        r2.all_boundaries.map (fun b => dictGet r2.path_dict ent b))).filter truthy
      match found.foldlM (fun acc p =>
          match damage_on_path r2 speed p with
          | .error e => (Except.error e : Except PyErr ℚ)
          | .ok d => Except.ok (acc + d)) (0 : ℚ) with
      | .error e => .error e
      | .ok dmg =>
        if found.length = 0 then .ok 0 else .ok (dmg / (found.length : ℚ))

/-- Criterion string accepted by `Defense.weakest_region`. -/
def critHealth : String := "HEALTH"

/-- Criterion string accepted by `Defense.weakest_region`. -/
def critUndefended : String := "UNDEFENDED TILES"

/-- Criterion string accepted by `Defense.weakest_region`. -/
def critDefensivePower : String := "DEFENSIVE POWER"

/-- Criterion string accepted by `Defense.weakest_region`. -/
def critAvgTileDmg : String := "AVG TILE DMG"

/-- The state of a `Defense` object (`python-algov2-0/defense.py`);
the rebuild queues and history list are not modelled (no claim concerns
them). -/
structure Defense where
  regions : List Region
  player_id : ℤ
  damage_regions : Coord → ℚ
  grid_unit : Coord → Option GameUnit
  coordinate_regions : Coord → ℤ
  grid_type : Coord → ℤ
  units : UnitInventory
  recalculate_damage_regions : Bool

/-- numpy index normalization on the `(28, 14)` arrays: a negative index
`i` with `-n ≤ i < 0` addresses element `i + n` (every index produced by
the source stays within that window). -/
def npIdx (c : Coord) : Coord :=
  (if c.1 < 0 then c.1 + 28 else c.1, if c.2 < 0 then c.2 + 14 else c.2)

/-- `Defense.offset_coord`: shift enemy-half coordinates down by the half
board height. -/
def offset_coord (player_id : ℤ) (coord : Coord) : Coord :=
  if player_id = 1 then (coord.1, coord.2 - 14) else coord

/-- `Defense.create_our_regions`: the six fixed regions of player 0. -/
def create_our_regions : List Region :=
  [ mkRegion [(0, 13), (7, 13), (7, 6)] 0
      [((0, 13), (7, 13)), ((7, 13), (7, 6))] [] [((0, 13), (7, 6))] none
  , mkRegion [(27, 13), (20, 13), (20, 6)] 0
      [((20, 13), (27, 13)), ((20, 13), (20, 6))] [] [((27, 13), (20, 6))] none
  , mkRegion [(7, 6), (7, 13), (14, 13)] 0
      [((7, 6), (7, 13)), ((7, 13), (14, 13))] [((7, 6), (14, 13))] [] none
  , mkRegion [(13, 13), (20, 13), (20, 6)] 0
      [((13, 13), (20, 13)), ((20, 13), (20, 6))] [((13, 13), (20, 6))] [] none
  , mkRegion [(7, 6), (13, 12), (14, 12), (20, 6)] 0
      [((7, 6), (13, 12)), ((13, 12), (14, 12)), ((14, 12), (20, 6))]
      [((7, 6), (20, 6))] [] none
  , mkRegion [(7, 6), (20, 6), (14, 0), (13, 0)] 0
      [((7, 6), (20, 6))] []
      [((7, 6), (13, 0)), ((13, 0), (14, 0)), ((14, 0), (20, 6))] none ]

/-- `Defense.create_enemy_regions`: the six fixed regions of player 1. -/
def create_enemy_regions : List Region :=
  [ mkRegion [(0, 14), (7, 14), (7, 21)] 1
      [((0, 14), (7, 14)), ((7, 14), (7, 21))] [] [((0, 14), (7, 21))] none
  , mkRegion [(20, 14), (20, 21), (27, 14)] 1
      [((20, 14), (20, 21)), ((20, 14), (27, 14))] [] [((20, 21), (27, 14))] none
  , mkRegion [(7, 14), (7, 21), (14, 14)] 1
      [((7, 14), (14, 14)), ((7, 14), (7, 21))] [((7, 21), (14, 14))] [] none
  , mkRegion [(13, 14), (20, 21), (20, 14)] 1
      [((13, 14), (20, 14)), ((20, 14), (20, 21))] [((13, 14), (20, 21))] [] none
  , mkRegion [(7, 21), (13, 15), (14, 15), (20, 21)] 1
      [((7, 21), (13, 15)), ((13, 15), (14, 15)), ((14, 15), (20, 21))]
      [((7, 21), (20, 21))] [] none
  , mkRegion [(7, 21), (13, 27), (14, 27), (20, 21)] 1
      [((7, 21), (20, 21))] []
      [((7, 21), (13, 27)), ((13, 27), (14, 27)), ((14, 27), (20, 21))] none ]

/-- A throwaway region value used only as the `List.getD` fallback where the
source would raise KeyError; never reached in any modelled execution. -/
def dummyRegion : Region :=
  mkRegion [(0, 0)] 0 [] [] [] none

/-- `Defense.initialize_coordinate_regions` (renamed: `init_`): for each
region index `i` in ascending order, write `i` at
`offset_coord(offset_coord(c))` for every region coordinate `c`.  The
double offset makes the y-index negative for player 1 (y in `[-14, -1]`),
which numpy wraps back to `y - 14` — the net effect of the bug is a single
offset.  All writes of one region store the same value, so the write loop
over the coordinate set is a bulk update.  The write log is factored out as
`region_writes`; a read returns the last write to its cell, -1 if none. -/
def region_writes (player_id : ℤ) (regions : List Region) : List (Coord × ℤ) :=
  (List.range 6).flatMap (fun i =>
    (regions.getD i dummyRegion).coordinates.map
      (fun c => (npIdx (offset_coord player_id (offset_coord player_id c)), (i : ℤ))))

def init_coordinate_regions (player_id : ℤ) (regions : List Region) : Coord → ℤ :=
  fun idx =>
    match (region_writes player_id regions).reverse.find? (fun w => w.1 == idx) with
    | some w => w.2
    | none => -1

/-- `Defense.initialize_grid` (renamed: `init_`): mark every coordinate
assigned to a region with 1, then overwrite the two breach-edge diagonals
with 0 (offset once for player 1); everything else stays -1.  Only indices
inside the `(28, 14)` shape are ever written. -/
def init_grid (player_id : ℤ) (cr : Coord → ℤ) : Coord → ℤ :=
  let zeroCoords :=
    if player_id = 0 then
      edge_coordinates ((0, 13), (13, 0)) ++ edge_coordinates ((14, 0), (27, 13))
    else
      (edge_coordinates ((0, 14), (13, 27)) ++ edge_coordinates ((14, 27), (27, 14))).map
        (offset_coord player_id)
  fun idx =>
    if idx ∈ zeroCoords then 0
    else if 0 ≤ idx.1 ∧ idx.1 < 28 ∧ 0 ≤ idx.2 ∧ idx.2 < 14 ∧ cr idx ≠ -1 then 1
    else -1

/-- `Defense.__init__`: build the six fixed regions of the player, a zero
damage array, an empty occupant array, the coordinate-to-region lookup
table, and the grid-type table, with empty inventories and the
recalculation flag set. -/
def mkDefense (player_id : ℤ) : Defense :=
  let regions := if player_id = 0 then create_our_regions else create_enemy_regions
  let cr := init_coordinate_regions player_id regions
  { regions := regions
    player_id := player_id
    damage_regions := fun _ => 0
    grid_unit := fun _ => none
    coordinate_regions := cr
    grid_type := init_grid player_id cr
    units := ⟨[], [], []⟩
    recalculate_damage_regions := true }

/-- The player-0 `Defense` instance. -/
def ourDefense : Defense := mkDefense 0

/-- The player-1 `Defense` instance. -/
def enemyDefense : Defense := mkDefense 1

/-- `Defense.get_region`: read the lookup table at the offset coordinate
(numpy reads normalize negative indices the same way writes do). -/
def get_region (d : Defense) (coord : Coord) : ℤ :=
  d.coordinate_regions (npIdx (offset_coord d.player_id coord))

/-- `self.regions[reg_id]` — KeyError when the index is missing. -/
def getRegionByIdx (d : Defense) (i : ℕ) : Except PyErr Region :=
  match d.regions[i]? with
  | some r => .ok r
  | none => .error .keyError

/-- `region.states` — AttributeError before `calculate_region_states` has
ever run. -/
def getStates (r : Region) : Except PyErr RegionStates :=
  match r.states with
  | some s => .ok s
  | none => .error .attributeError

/-- `Defense.weakest_region`: four criteria, each a strict-improvement fold
over the candidate list with default answer 0, so an empty candidate list
returns index 0; an unrecognized criterion string falls through every `if`
and returns Python `None`.  The `DEFENSIVE POWER` branch weighs turret cost
by the relative-weight constant `TURRET_TO_WALL_RATIO = 1` (inlined). -/
def weakest_region (d : Defense) (criteria : String) (regions_to_consider : List ℕ) :
    Except PyErr (Option ℕ) :=
  if criteria == critHealth then
    match regions_to_consider.foldlM (fun (acc : ℚ × ℕ) reg_id =>
        match getRegionByIdx d reg_id with
        | .error e => (Except.error e : Except PyErr (ℚ × ℕ))
        | .ok reg =>
          match getStates reg with
          | .error e => Except.error e
          | .ok st =>
            if st.overall_health_def < acc.1 then Except.ok (st.overall_health_def, reg_id)
            else Except.ok acc) ((1000000000 : ℚ), 0) with
    | .error e => .error e
    | .ok acc => .ok (some acc.2)
  else if criteria == critUndefended then
    match regions_to_consider.foldlM (fun (acc : ℕ × ℕ) reg_id =>
        match getRegionByIdx d reg_id with
        | .error e => (Except.error e : Except PyErr (ℕ × ℕ))
        | .ok reg =>
          match getStates reg with
          | .error e => Except.error e
          | .ok st =>
            if st.undefended.length > acc.1 then Except.ok (st.undefended.length, reg_id)
            else Except.ok acc) ((0 : ℕ), 0) with
    | .error e => .error e
    | .ok acc => .ok (some acc.2)
  else if criteria == critDefensivePower then
    match regions_to_consider.foldlM (fun (acc : ℚ × ℕ) reg_id =>
        match getRegionByIdx d reg_id with
        | .error e => (Except.error e : Except PyErr (ℚ × ℕ))
        | .ok reg =>
          let power := (allUnitsList reg.units).foldl (fun (p : ℚ × ℚ) (u : GameUnit) =>
            if u.unit_type = UnitType.WALL then (p.1 + u.cost * (u.health / u.max_health), p.2)
            else if u.unit_type = UnitType.TURRET then
              (p.1, p.2 + u.cost * (u.health / u.max_health) * 1)
            else p) (0, 0)
          if min power.2 power.1 < acc.1 then Except.ok (min power.2 power.1, reg_id)
          else Except.ok acc) ((100000000 : ℚ), 0) with
    | .error e => .error e
    | .ok acc => .ok (some acc.2)
  else if criteria == critAvgTileDmg then
    match regions_to_consider.foldlM (fun (acc : ℚ × ℕ) reg_id =>
        match getRegionByIdx d reg_id with
        | .error e => (Except.error e : Except PyErr (ℚ × ℕ))
        | .ok reg =>
          match getStates reg with
          | .error e => Except.error e
          | .ok st =>
            if st.avg_tile_dmg < acc.1 then Except.ok (st.avg_tile_dmg, reg_id)
            else Except.ok acc) ((100000000 : ℚ), 0) with
    | .error e => .error e
    | .ok acc => .ok (some acc.2)
  else .ok none

/-- `Defense.calculate_damage_regions`: when the recalculation flag is set,
add each turret's tier damage over its tier radius to the (never re-zeroed)
damage array, skipping out-of-half coordinates, then clear the flag. -/
def defense_calculate_damage_regions (d : Defense) : Defense :=
  if d.recalculate_damage_regions then
    let dmg := d.units.turret.foldl (fun arr turret =>
      let damage : ℚ := if turret.upgraded then 15 else 5
      let radius : ℚ := if turret.upgraded then 7/2 else 5/2
      (get_locations_in_range (turret.x, turret.y) radius).foldl (fun arr coord =>
        let oc := offset_coord d.player_id coord
        if d.grid_type oc = -1 ∨ oc.2 > 13 then arr
        else fun c => if c = oc then arr oc + damage else arr c) arr) d.damage_regions
    { d with damage_regions := dmg, recalculate_damage_regions := false }
  else d

/-- The half-board coordinate window owned by a player: x in `[0, 27]`,
y in `[14 p, 14 p + 13]`. -/
def halfCoords (player_id : ℤ) : List Coord :=
  (rangeInt 0 27).flatMap (fun x =>
    (rangeInt (14 * player_id) (14 * player_id + 13)).map (fun y => ((x, y) : Coord)))

/-- A 7-by-7 rectangle test region on `[0,6] × [0,6]` whose bottom side is
an incoming edge: 24 boundary tiles, 25 interior tiles. -/
def sq7 : Region :=
  mkRegion [(0, 0), (6, 0), (6, 6), (0, 6)] 0 [((0, 0), (6, 0))] [] [] none

/-- An unupgraded turret at `(3, 3)` (tier radius 2.5, tier damage 5). -/
def turretU : GameUnit :=
  { unit_type := .TURRET, x := 3, y := 3, health := 75, max_health := 75,
    cost := 2, upgraded := false, attackRange := 5/2, damage_i := 5 }

/-- A wall at `(3, 3)`. -/
def wallU : GameUnit :=
  { unit_type := .WALL, x := 3, y := 3, health := 60, max_health := 60,
    cost := 1, upgraded := false, attackRange := 0, damage_i := 0 }

/-- The empty map snapshot. -/
def mapEmpty : GameMap := fun _ => []

/-- A snapshot with exactly one turret, at `(3, 3)`. -/
def mapTurret : GameMap := fun c => if c = ((3 : ℤ), (3 : ℤ)) then [turretU] else []

/-- A snapshot with exactly one wall, at `(3, 3)`. -/
def mapWall : GameMap := fun c => if c = ((3 : ℤ), (3 : ℤ)) then [wallU] else []

/-- C2 step 1: scan the map holding the turret. -/
def c2r1 : Region := update_structures sq7 mapTurret

/-- C2 step 2: compute the damage field with the turret present. -/
def c2r2 : Region := calculate_local_damage_regions c2r1 (some mapTurret)

/-- C2 step 3: re-run the scan after the turret was removed from the map. -/
def c2r3 : Region := update_structures c2r2 mapEmpty

/-- C2 step 4: recompute the damage field. -/
def c2r4 : Region := calculate_local_damage_regions c2r3 (some mapEmpty)

/-- C4: scan the wall, then re-scan after its removal. -/
def c4r2 : Region := update_structures (update_structures sq7 mapWall) mapEmpty

/-- C5: two update cycles over the unchanged turret snapshot. -/
def c5r2 : Region := update_structures (update_structures sq7 mapTurret) mapTurret

/-- The geometry computed at construction: `xbounds`, `ybounds`, the
tri-state classification grid, and `tile_count`. -/
def geomFields (r : Region) : (ℤ × ℤ) × (ℤ × ℤ) × (Coord → ℤ) × ℕ :=
  (r.xbounds, r.ybounds, r.grid_type, r.tile_count)

/-- Equality on `Except` results is decidable (used to evaluate the embedded
fallible operations at concrete inputs). -/
instance instDecEqExceptPy {ε α : Type} [DecidableEq ε] [DecidableEq α] :
    DecidableEq (Except ε α) := fun x y =>
  match x, y with
  | .ok a, .ok b =>
    if h : a = b then isTrue (by rw [h]) else isFalse (fun hc => by cases hc; exact h rfl)
  | .error a, .error b =>
    if h : a = b then isTrue (by rw [h]) else isFalse (fun hc => by cases hc; exact h rfl)
  | .ok _, .error _ => isFalse nofun
  | .error _, .ok _ => isFalse nofun

/-- The vertex list of an axis-aligned rectangle, in the counterclockwise
order bottom-left, bottom-right, top-right, top-left. -/
def rectVerts (a b x1 y1 : ℤ) : List Coord := [(a, b), (x1, b), (x1, y1), (a, y1)]

/-- A rectangle region whose four sides are all supplied as boundary
(incoming) edges. -/
def rectRegion (a b x1 y1 : ℤ) : Region :=
  mkRegion (rectVerts a b x1 y1) 0
    [((a, b), (x1, b)), ((x1, b), (x1, y1)), ((x1, y1), (a, y1)), ((a, y1), (a, b))]
    [] [] none

def dmg7 : Coord → ℚ := fun c => if c = ((0 : ℤ), (3 : ℤ)) then 7 else 0

/-!
Characterization lemmas for the construction geometry (used by the
rectangle rasterization and averaging claims).
-/
theorem mem_rangeInt (lo hi z : ℤ) : z ∈ rangeInt lo hi ↔ lo ≤ z ∧ z ≤ hi := by
  constructor
  · intro h
    obtain ⟨i, hi1, rfl⟩ := List.mem_map.mp h
    have h2 := List.mem_range.mp hi1
    omega
  · intro h
    exact List.mem_map.mpr ⟨(z - lo).toNat, List.mem_range.mpr (by omega), by omega⟩

theorem nodup_rangeInt (lo hi : ℤ) : (rangeInt lo hi).Nodup :=
  (List.nodup_range _).map (fun a b h => by omega)

theorem mem_ec_branches_h (p r q : ℤ) (hpr : p < r) (z : Coord) :
    z ∈ ec_branches (p, q) (r, q) ↔ z.2 = q ∧ p ≤ z.1 ∧ z.1 ≤ r := by
  unfold ec_branches
  rw [if_neg (show ¬ ((p, q) : Coord).1 = ((r, q) : Coord).1 by simp; omega),
    if_pos (show ((p, q) : Coord).2 = ((r, q) : Coord).2 from rfl)]
  constructor
  · intro h
    obtain ⟨i, hi1, rfl⟩ := List.mem_map.mp h
    have h2 := List.mem_range.mp hi1
    simp at h2 ⊢
    omega
  · intro h
    refine List.mem_map.mpr ⟨(z.1 - p).toNat, List.mem_range.mpr (by simp; omega), ?_⟩
    obtain ⟨z1, z2⟩ := z
    simp at h ⊢
    omega

theorem mem_ec_branches_v (p u v : ℤ) (z : Coord) :
    z ∈ ec_branches (p, u) (p, v) ↔ z.1 = p ∧ min u v ≤ z.2 ∧ z.2 ≤ max u v := by
  unfold ec_branches
  rw [if_pos (show ((p, u) : Coord).1 = ((p, v) : Coord).1 from rfl)]
  constructor
  · intro h
    obtain ⟨i, hi1, rfl⟩ := List.mem_map.mp h
    have h2 := List.mem_range.mp hi1
    simp at h2 ⊢
    omega
  · intro h
    refine List.mem_map.mpr ⟨(z.2 - min u v).toNat, List.mem_range.mpr (by simp; omega), ?_⟩
    obtain ⟨z1, z2⟩ := z
    simp at h ⊢
    omega

theorem mem_edge_coordinates_h (p r q : ℤ) (hpr : p < r) (z : Coord) :
    z ∈ edge_coordinates ((p, q), (r, q)) ↔ z.2 = q ∧ p ≤ z.1 ∧ z.1 ≤ r := by
  unfold edge_coordinates
  rw [if_neg (show ¬ ((r, q) : Coord).1 < ((p, q) : Coord).1 by simp; omega)]
  exact mem_ec_branches_h p r q hpr z

theorem mem_edge_coordinates_h2 (p r q : ℤ) (hpr : p < r) (z : Coord) :
    z ∈ edge_coordinates ((r, q), (p, q)) ↔ z.2 = q ∧ p ≤ z.1 ∧ z.1 ≤ r := by
  unfold edge_coordinates
  rw [if_pos (show ((p, q) : Coord).1 < ((r, q) : Coord).1 by simpa using hpr)]
  exact mem_ec_branches_h p r q hpr z

theorem mem_edge_coordinates_v (p u v : ℤ) (z : Coord) :
    z ∈ edge_coordinates ((p, u), (p, v)) ↔ z.1 = p ∧ min u v ≤ z.2 ∧ z.2 ≤ max u v := by
  unfold edge_coordinates
  rw [if_neg (by simp)]
  exact mem_ec_branches_v p u v z

theorem mem_dedup_fold (l : List Coord) (c : Coord) : ∀ acc : List Coord,
    (c ∈ l.foldl (fun acc c => if c ∈ acc then acc else acc ++ [c]) acc ↔ c ∈ acc ∨ c ∈ l) := by
  induction l with
  | nil => intro acc; simp
  | cons x xs ih =>
    intro acc
    simp only [List.foldl_cons]
    by_cases hx : x ∈ acc
    · rw [if_pos hx, ih acc]
      simp only [List.mem_cons]
      constructor
      · tauto
      · rintro (h | rfl | h) <;> tauto
    · rw [if_neg hx, ih (acc ++ [x])]
      simp only [List.mem_append, List.mem_cons, List.mem_singleton]
      tauto

theorem mem_dedupKeepFirst (l : List Coord) (c : Coord) :
    c ∈ dedupKeepFirst l ↔ c ∈ l := by
  unfold dedupKeepFirst
  rw [mem_dedup_fold]
  simp

theorem nodup_dedup_fold (l : List Coord) : ∀ acc : List Coord, acc.Nodup →
    (l.foldl (fun acc c => if c ∈ acc then acc else acc ++ [c]) acc).Nodup := by
  induction l with
  | nil => intro acc h; simpa using h
  | cons x xs ih =>
    intro acc hacc
    simp only [List.foldl_cons]
    by_cases hx : x ∈ acc
    · rw [if_pos hx]; exact ih acc hacc
    · rw [if_neg hx]
      refine ih (acc ++ [x]) ?_
      simp [List.nodup_append, hacc, hx]

theorem nodup_dedupKeepFirst (l : List Coord) : (dedupKeepFirst l).Nodup :=
  nodup_dedup_fold l [] (by simp)

theorem mem_boxList (xb yb : ℤ × ℤ) (c : Coord) :
    c ∈ boxList xb yb ↔ xb.1 ≤ c.1 ∧ c.1 ≤ xb.2 ∧ yb.1 ≤ c.2 ∧ c.2 ≤ yb.2 := by
  unfold boxList
  simp only [List.mem_flatMap, List.mem_map, mem_rangeInt]
  constructor
  · rintro ⟨y, hy, x, hx, rfl⟩
    simp only []
    omega
  · intro h
    exact ⟨c.2, ⟨h.2.2.1, h.2.2.2⟩, c.1, ⟨h.1, h.2.1⟩, by simp⟩

theorem nodup_boxList (xb yb : ℤ × ℤ) : (boxList xb yb).Nodup := by
  unfold boxList
  rw [List.nodup_flatMap]
  constructor
  · intro y hy
    exact (nodup_rangeInt _ _).map (fun a b h => by simpa using congrArg Prod.fst h)
  · rw [List.pairwise_iff_forall_sublist]
    intro a b hsub
    have hab : a ≠ b := by
      have hnd := hsub.nodup (nodup_rangeInt yb.1 yb.2)
      simpa using hnd
    intro c hca hcb
    obtain ⟨xa, hxa, rfl⟩ := List.mem_map.mp hca
    obtain ⟨xc, hxc, heq⟩ := List.mem_map.mp hcb
    exact hab (by simpa using (congrArg Prod.snd heq).symm)

theorem mkRegion_all_boundaries (vs : List Coord) (pid : ℤ)
    (ie oe be : List (Coord × Coord)) :
    (mkRegion vs pid ie oe be none).all_boundaries = polygon_boundaries vs := rfl

theorem mkRegion_interior (vs : List Coord) (pid : ℤ) (ie oe be : List (Coord × Coord)) :
    (mkRegion vs pid ie oe be none).interior
      = (boxList (mkRegion vs pid ie oe be none).xbounds
          (mkRegion vs pid ie oe be none).ybounds).filter
          (fun c => decide (¬ c ∈ polygon_boundaries vs) && point_inside_polygon c.1 c.2 vs) := rfl

theorem mkRegion_coordinates (vs : List Coord) (pid : ℤ) (ie oe be : List (Coord × Coord)) :
    (mkRegion vs pid ie oe be none).coordinates
      = (mkRegion vs pid ie oe be none).interior
        ++ (mkRegion vs pid ie oe be none).all_boundaries := rfl

theorem mkRegion_tile_count (vs : List Coord) (pid : ℤ) (ie oe be : List (Coord × Coord)) :
    (mkRegion vs pid ie oe be none).tile_count
      = (mkRegion vs pid ie oe be none).interior.length := rfl

theorem mkRegion_grid_type (vs : List Coord) (pid : ℤ) (ie oe be : List (Coord × Coord))
    (c : Coord) :
    (mkRegion vs pid ie oe be none).grid_type c
      = (if (mkRegion vs pid ie oe be none).xbounds.1 ≤ c.1 ∧
            c.1 ≤ (mkRegion vs pid ie oe be none).xbounds.2 ∧
            (mkRegion vs pid ie oe be none).ybounds.1 ≤ c.2 ∧
            c.2 ≤ (mkRegion vs pid ie oe be none).ybounds.2 then
          if c ∈ polygon_boundaries vs then 0
          else if point_inside_polygon c.1 c.2 vs then 1
          else -1
        else -1) := rfl

theorem rect_xbounds (a b x1 y1 : ℤ) (pid : ℤ) (ie oe be : List (Coord × Coord))
    (h1 : a ≤ x1) (h2 : b ≤ y1) :
    (mkRegion (rectVerts a b x1 y1) pid ie oe be none).xbounds = (a, x1) ∧
    (mkRegion (rectVerts a b x1 y1) pid ie oe be none).ybounds = (b, y1) := by
  constructor
  · show (minList [a, x1, x1, a], maxList [a, x1, x1, a]) = (a, x1)
    unfold minList maxList
    simp only [List.foldl]
    rw [Prod.mk.injEq]
    omega
  · show (minList [b, b, y1, y1], maxList [b, b, y1, y1]) = (b, y1)
    unfold minList maxList
    simp only [List.foldl]
    rw [Prod.mk.injEq]
    omega

theorem rect_bnd_mem (a b x1 y1 : ℤ) (h1 : a < x1) (h2 : b < y1) (c : Coord) :
    c ∈ polygon_boundaries (rectVerts a b x1 y1)
      ↔ (a ≤ c.1 ∧ c.1 ≤ x1 ∧ b ≤ c.2 ∧ c.2 ≤ y1 ∧
          (c.1 = a ∨ c.1 = x1 ∨ c.2 = b ∨ c.2 = y1)) := by
  unfold polygon_boundaries
  rw [mem_dedupKeepFirst]
  norm_num [rectVerts, List.range_succ, List.mem_append]
  rw [mem_edge_coordinates_h a x1 b h1 c, mem_edge_coordinates_v x1 b y1 c,
    mem_edge_coordinates_h2 a x1 y1 h1 c, mem_edge_coordinates_v a y1 b c]
  rw [min_eq_left h2.le, max_eq_right h2.le, min_eq_right h2.le, max_eq_left h2.le]
  omega

theorem pip_rect_inner (a b x1 y1 x y : ℤ) (ha : a < x) (hx : x < x1)
    (hb : b < y) (hy : y < y1) :
    point_inside_polygon x y (rectVerts a b x1 y1) = true := by
  have t1 : pipToggle x y (a, b) (a, b) = false := by
    apply decide_eq_false
    rintro ⟨hA, hB, -⟩
    simp only [min_self, max_self] at hA hB
    omega
  have t2 : pipToggle x y (a, b) (x1, b) = false := by
    apply decide_eq_false
    rintro ⟨hA, hB, -⟩
    simp only [min_self, max_self] at hA hB
    omega
  have t3 : pipToggle x y (x1, b) (x1, y1) = true := by
    apply decide_eq_true
    exact ⟨by rw [min_eq_left (by omega : b ≤ y1)]; omega,
      by rw [max_eq_right (by omega : b ≤ y1)]; omega,
      by rw [max_self]; omega, Or.inl rfl⟩
  have t4 : pipToggle x y (x1, y1) (a, y1) = false := by
    apply decide_eq_false
    rintro ⟨hA, hB, -⟩
    simp only [min_self, max_self] at hA hB
    omega
  have t5 : pipToggle x y (a, y1) (a, b) = false := by
    apply decide_eq_false
    rintro ⟨-, -, hC, -⟩
    rw [max_self] at hC
    omega
  show pipAux x y [((a, b), (a, b)), ((a, b), (x1, b)), ((x1, b), (x1, y1)),
    ((x1, y1), (a, y1)), ((a, y1), (a, b))] false = true
  simp only [pipAux, t1, t2, t3, t4, t5]
  rfl

theorem countP_range_window (n c1 c2 : ℕ) :
    (List.range n).countP (fun i => decide (c1 ≤ i ∧ i < c2)) = min n c2 - min n c1 := by
  induction n with
  | zero => simp
  | succ n ih =>
    rw [List.range_succ, List.countP_append, ih]
    by_cases hc : c1 ≤ n ∧ n < c2
    · rw [List.countP_cons_of_pos _ _ (by simpa using hc)]
      simp only [List.countP_nil]
      omega
    · rw [List.countP_cons_of_neg _ _ (by simpa using hc)]
      simp only [List.countP_nil]
      omega

theorem countP_rangeInt_strict (lo hi : ℤ) :
    (rangeInt lo hi).countP (fun z => decide (lo < z ∧ z < hi)) = (hi - lo - 1).toNat := by
  unfold rangeInt
  rw [List.countP_map]
  rw [List.countP_congr (q := fun i => decide (1 ≤ i ∧ i < (hi - lo).toNat))
    (fun i hi2 => by simp; omega)]
  rw [countP_range_window]
  omega

theorem sum_range_window (n c1 c2 k : ℕ) :
    ((List.range n).map (fun i => if c1 ≤ i ∧ i < c2 then k else 0)).sum
      = (min n c2 - min n c1) * k := by
  induction n with
  | zero => simp
  | succ n ih =>
    rw [List.range_succ, List.map_append, List.sum_append, ih]
    simp only [List.map_cons, List.map_nil, List.sum_cons, List.sum_nil]
    by_cases hc : c1 ≤ n ∧ n < c2
    · rw [if_pos hc]
      have hmins : min (n + 1) c2 - min (n + 1) c1 = (min n c2 - min n c1) + 1 := by omega
      rw [hmins, Nat.succ_mul]
      omega
    · rw [if_neg hc]
      have hmins : min (n + 1) c2 - min (n + 1) c1 = min n c2 - min n c1 := by omega
      rw [hmins]
      omega

theorem rect_pred_eq (a b x1 y1 : ℤ) (h1 : a < x1) (h2 : b < y1) (c : Coord)
    (hc : a ≤ c.1 ∧ c.1 ≤ x1 ∧ b ≤ c.2 ∧ c.2 ≤ y1) :
    (decide (¬ c ∈ polygon_boundaries (rectVerts a b x1 y1))
      && point_inside_polygon c.1 c.2 (rectVerts a b x1 y1))
    = decide (a < c.1 ∧ c.1 < x1 ∧ b < c.2 ∧ c.2 < y1) := by
  by_cases hstrict : a < c.1 ∧ c.1 < x1 ∧ b < c.2 ∧ c.2 < y1
  · have hnb : ¬ c ∈ polygon_boundaries (rectVerts a b x1 y1) := by
      rw [rect_bnd_mem a b x1 y1 h1 h2]
      omega
    rw [decide_eq_true hstrict, decide_eq_true hnb,
      pip_rect_inner a b x1 y1 c.1 c.2 hstrict.1 hstrict.2.1 hstrict.2.2.1 hstrict.2.2.2]
    rfl
  · have hb : c ∈ polygon_boundaries (rectVerts a b x1 y1) := by
      rw [rect_bnd_mem a b x1 y1 h1 h2]
      omega
    rw [decide_eq_false hstrict, decide_eq_false (fun hn => hn hb)]
    rfl

theorem rect_strict_count (a b x1 y1 : ℤ) :
    ((boxList (a, x1) (b, y1)).filter
      (fun c => decide (a < c.1 ∧ c.1 < x1 ∧ b < c.2 ∧ c.2 < y1))).length
    = (y1 - b - 1).toNat * (x1 - a - 1).toNat := by
  rw [← List.countP_eq_length_filter]
  unfold boxList
  rw [show ((rangeInt b y1).flatMap (fun y =>
      (rangeInt a x1).map (fun x => ((x, y) : Coord))))
    = ((rangeInt b y1).map (fun y =>
      (rangeInt a x1).map (fun x => ((x, y) : Coord)))).flatten from rfl]
  rw [List.countP_flatten, List.map_map]
  have hrow : ∀ y ∈ rangeInt b y1,
      (List.countP (fun c => decide (a < c.1 ∧ c.1 < x1 ∧ b < c.2 ∧ c.2 < y1)) ∘
        (fun y => (rangeInt a x1).map (fun x => ((x, y) : Coord)))) y
      = if b < y ∧ y < y1 then (x1 - a - 1).toNat else 0 := by
    intro y hy
    simp only [Function.comp_apply, List.countP_map]
    by_cases hys : b < y ∧ y < y1
    · rw [if_pos hys]
      rw [List.countP_congr (q := fun x => decide (a < x ∧ x < x1))
        (fun x hx => by simp; omega)]
      exact countP_rangeInt_strict a x1
    · rw [if_neg hys]
      rw [List.countP_eq_zero]
      intro x hx
      simp
      omega
  rw [List.map_congr_left hrow]
  rw [show ((rangeInt b y1).map (fun y => if b < y ∧ y < y1 then (x1 - a - 1).toNat else 0))
    = ((List.range (y1 + 1 - b).toNat).map (fun i : ℕ =>
        if b < b + (i : ℤ) ∧ b + (i : ℤ) < y1 then (x1 - a - 1).toNat else 0)) from by
      unfold rangeInt
      rw [List.map_map]
      rfl]
  rw [List.map_congr_left (g := fun i : ℕ =>
      if 1 ≤ i ∧ i < (y1 - b).toNat then (x1 - a - 1).toNat else 0)
    (fun i hi => by
      congr 1
      · exact propext (by constructor <;> (intro h; constructor <;> omega))
      )]
  rw [sum_range_window]
  congr 1
  omega

theorem mkRegion_mem_interior (vs : List Coord) (pid : ℤ) (ie oe be : List (Coord × Coord))
    (c : Coord) :
    c ∈ (mkRegion vs pid ie oe be none).interior
      ↔ c ∈ boxList (mkRegion vs pid ie oe be none).xbounds
            (mkRegion vs pid ie oe be none).ybounds
        ∧ ¬ c ∈ polygon_boundaries vs ∧ point_inside_polygon c.1 c.2 vs = true := by
  rw [mkRegion_interior, List.mem_filter]
  simp only [Bool.and_eq_true, decide_eq_true_eq, and_assoc]

theorem mkRegion_grid_type_nonneg (vs : List Coord) (pid : ℤ) (ie oe be : List (Coord × Coord))
    (c : Coord)
    (hbox : c ∈ boxList (mkRegion vs pid ie oe be none).xbounds
      (mkRegion vs pid ie oe be none).ybounds) :
    (0 ≤ (mkRegion vs pid ie oe be none).grid_type c
      ↔ (c ∈ polygon_boundaries vs ∨ point_inside_polygon c.1 c.2 vs = true)) := by
  rw [mkRegion_grid_type, if_pos ((mem_boxList _ _ c).mp hbox)]
  by_cases hbnd : c ∈ polygon_boundaries vs
  · rw [if_pos hbnd]
    simp [hbnd]
  · rw [if_neg hbnd]
    by_cases hpip : point_inside_polygon c.1 c.2 vs = true
    · rw [if_pos hpip]
      simp [hpip]
    · rw [if_neg hpip]
      simp [hbnd, hpip]

theorem mkRegion_nodup_coordinates (vs : List Coord) (pid : ℤ)
    (ie oe be : List (Coord × Coord)) :
    (mkRegion vs pid ie oe be none).coordinates.Nodup := by
  rw [mkRegion_coordinates, List.nodup_append]
  refine ⟨(nodup_boxList _ _).filter _, ?_, ?_⟩
  · rw [mkRegion_all_boundaries]
    exact nodup_dedupKeepFirst _
  · intro c hcI hcB
    rw [mkRegion_all_boundaries] at hcB
    exact ((mkRegion_mem_interior vs pid ie oe be c).mp hcI).2.1 hcB

/-!
Claim theorems.
-/

set_option maxRecDepth 100000 in
/-- C1: the claim states that in `Region.bfs` a neighbor is visited —
recorded as an exit if BOUNDARY, enqueued if INTERIOR — exactly when its
tile classification is not OUTSIDE and it is unvisited, with occupancy
playing no role.  The code disagrees: `if self[adj][1] is None: continue`
skips every UNOCCUPIED neighbor before recording or enqueueing.  On the
empty square region, the BFS from entrance `(3, 0)` marks the INTERIOR,
unoccupied, in-bounds neighbor `(3, 1)` visited but never enqueues it, the
queue drains after the first dequeue, and the whole path calculation
records no path at all even though exits are reachable. -/
theorem bfs_requires_structure_to_expand :
    (bfs sq7 (3, 0) [] [] 1000).map (fun res => (res.1, res.2.length))
      = .ok ([(3, 0), (3, 1), (4, 0), (2, 0)], 0) ∧
    sq7.grid_type (3, 1) = 1 ∧ sq7.grid_unit (3, 1) = none ∧
    (calculate_paths sq7 1000).map (fun r => r.path_dict.length) = .ok 0 :=
  ⟨by decide, by decide, by decide, by decide⟩

set_option maxRecDepth 100000 in
/-- C2: the claim states that after removing the only turret, re-running
`update_structures` and recomputing the damage field, the field is 0
everywhere and all interior tiles are undefended.  The code never re-zeroes
the field (and never clears the turret inventory), so the recomputation
ADDS the stale turret's contribution again: the tile under the removed
turret reads 10, not 0, and is not reported undefended. -/
theorem damage_field_not_rezeroed :
    c2r2.damage_regions (3, 3) = 5 ∧ mapEmpty (3, 3) = [] ∧
    c2r4.damage_regions (3, 3) = 10 ∧
    ¬ (3, 3) ∈ undefended_tiles c2r4 ∧ (3, 3) ∈ c2r4.interior :=
  ⟨by decide, by decide, by decide, by decide, by decide⟩

set_option maxRecDepth 100000 in
/-- C4: the claim states that a tile that is unoccupied in the scanned map
snapshot has its stored occupant cleared by `update_structures`.  The
clearing statement `self[coord[0], coord[1]][1] = None` assigns into the
temporary list built by `__getitem__`, so after scanning a snapshot without
the wall, the INTERIOR tile `(3, 3)` still stores the wall recorded by the
previous scan. -/
theorem update_structures_leaves_stale_occupant :
    sq7.grid_type (3, 3) = 1 ∧ mapEmpty (3, 3) = [] ∧
    c4r2.grid_unit (3, 3) = some wallU :=
  ⟨by decide, rfl, by decide⟩

set_option maxRecDepth 100000 in
/-- C5: the claim states that after each per-turn update cycle every
structure appears at most once in a region's inventory lists because the
inventories are cleared before each re-scan.  `Region.update_structures`
never clears `self.units`, so the second cycle over the unchanged snapshot
appends the same turret again. -/
theorem units_accumulate_across_updates :
    (update_structures sq7 mapTurret).units.turret = [turretU] ∧
    c5r2.units.turret = [turretU, turretU] :=
  ⟨by decide, by decide⟩

set_option maxRecDepth 100000 in
/-- C8 counterexample: `weakest_region` on an empty candidate list does not
fail — the HEALTH criterion returns the default index 0. -/
theorem weakest_region_empty_candidates_cex :
    weakest_region ourDefense critHealth [] = .ok (some 0) := rfl

set_option maxRecDepth 100000 in
/-- C8 amended: for every defense state and each of the four supported
criteria, `weakest_region` with an empty candidate list returns the default
region index 0 (it does not raise). -/
theorem weakest_region_empty_returns_default (d : Defense) :
    weakest_region d critHealth [] = .ok (some 0) ∧
    weakest_region d critUndefended [] = .ok (some 0) ∧
    weakest_region d critDefensivePower [] = .ok (some 0) ∧
    weakest_region d critAvgTileDmg [] = .ok (some 0) :=
  ⟨rfl, rfl, rfl, rfl⟩

/-- C6: for any region state whose path recomputation succeeds with no
discovered (truthy) entrance-to-exit path, and any of the three supported
mobile kinds, `simulate_average_damage` returns 0 rather than dividing by
the zero path count. -/
theorem simulate_average_damage_no_paths (r r2 : Region) (u : UnitType) (fuel : ℕ)
    (hu : u = .DEMOLISHER ∨ u = .SCOUT ∨ u = .INTERCEPTOR)
    (hok : calculate_paths r fuel = .ok r2)
    (hempty : ∀ e ∈ entrances r2, ∀ b ∈ r2.all_boundaries,
      truthy (dictGet r2.path_dict e b) = false) :
    simulate_average_damage r u fuel = .ok 0 := by
  have hfound : ((entrances r2).flatMap (fun ent =>
      r2.all_boundaries.map (fun b => dictGet r2.path_dict ent b))).filter truthy = [] := by
    rw [List.filter_eq_nil_iff]
    intro p hp
    simp only [List.mem_flatMap, List.mem_map] at hp
    obtain ⟨e, he, b, hb, rfl⟩ := hp
    simp [hempty e he b hb]
  unfold simulate_average_damage
  rw [hok]
  rcases hu with h | h | h <;> subst h <;> dsimp only [] <;> rw [hfound] <;> rfl

set_option maxRecDepth 100000 in
/-- C6 witness: on the structure-free square region (whose BFS discovers no
path), a demolisher's simulated average damage is 0, not an error. -/
theorem simulate_average_damage_no_paths_witness :
    simulate_average_damage sq7 .DEMOLISHER 1000 = .ok 0 :=
  simulate_average_damage_no_paths sq7 { sq7 with path_dict := [] } .DEMOLISHER 1000
    (Or.inl rfl) rfl (by decide)

/-- `scanTile` only rewrites the inventory and occupant fields. -/
theorem geomFields_scanTile (m : GameMap) (r : Region) (c : Coord) :
    geomFields (scanTile m r c) = geomFields r := by
  unfold scanTile
  split
  · rfl
  · rcases (m c).head? with _ | u
    · rfl
    · rcases hu : u.unit_type <;> simp only [hu] <;> rfl

/-- Folding `scanTile` over any coordinate list preserves the geometry. -/
theorem geomFields_scan_foldl (m : GameMap) (l : List Coord) (r : Region) :
    geomFields (l.foldl (scanTile m) r) = geomFields r := by
  induction l generalizing r with
  | nil => rfl
  | cons c rest ih => rw [List.foldl_cons, ih, geomFields_scanTile]

/-- C10: the geometry computed at construction — `xbounds`, `ybounds`, the
tri-state grid and `tile_count` — is unchanged by `update_structures`, by a
successful `calculate_paths` (whose `bfs` runs touch only the visited array
and the path dictionary), and by `calculate_local_damage_regions`; those
operations rewrite only the occupant grid, the inventory lists, the damage
field, the path table and the `recalculate_paths` flag, and the statistics
queries build no new region state at all. -/
theorem region_ops_preserve_geometry :
    (∀ (r : Region) (m : GameMap), geomFields (update_structures r m) = geomFields r) ∧
    (∀ (r r2 : Region) (fuel : ℕ),
      calculate_paths r fuel = .ok r2 → geomFields r2 = geomFields r) ∧
    (∀ (r : Region) (gm : Option GameMap),
      geomFields (calculate_local_damage_regions r gm) = geomFields r) := by
  refine ⟨fun r m => ?_, fun r r2 fuel h => ?_, fun r gm => ?_⟩
  · show geomFields { r.coordinates.foldl (scanTile m) r with recalculate_paths := true }
      = geomFields r
    rw [show geomFields { r.coordinates.foldl (scanTile m) r with recalculate_paths := true }
      = geomFields (r.coordinates.foldl (scanTile m) r) from rfl]
    exact geomFields_scan_foldl m r.coordinates r
  · unfold calculate_paths at h
    split at h
    · split at h
      · exact absurd h nofun
      · cases h; rfl
    · cases h; rfl
  · unfold calculate_local_damage_regions
    rcases gm with _ | g
    · rfl
    · rfl

set_option maxRecDepth 100000 in
/-- C10 witness: the frame property evaluated on the square region for each
of the three mutating operations (with a concrete successful
`calculate_paths` run). -/
theorem region_ops_preserve_geometry_witness :
    geomFields (update_structures sq7 mapEmpty) = geomFields sq7 ∧
    geomFields { sq7 with path_dict := [] } = geomFields sq7 ∧
    geomFields (calculate_local_damage_regions sq7 (some mapEmpty)) = geomFields sq7 :=
  ⟨region_ops_preserve_geometry.1 sq7 mapEmpty,
   region_ops_preserve_geometry.2.1 sq7 { sq7 with path_dict := [] } 1000 rfl,
   region_ops_preserve_geometry.2.2 sq7 (some mapEmpty)⟩

/-- C7: for every axis-aligned rectangle region of width `w > 2` and height
`h > 2` whose four sides are all supplied as boundary edges, construction
classifies every perimeter lattice tile as BOUNDARY (tile type 0) and
records `tile_count = (w - 2) * (h - 2)`, the interior area. -/
theorem rect_region_perimeter_and_tile_count (a b : ℤ) (w h : ℕ)
    (hw : 2 < w) (hh : 2 < h) :
    (∀ c : Coord,
      (a ≤ c.1 ∧ c.1 ≤ a + (w : ℤ) - 1 ∧ b ≤ c.2 ∧ c.2 ≤ b + (h : ℤ) - 1 ∧
        (c.1 = a ∨ c.1 = a + (w : ℤ) - 1 ∨ c.2 = b ∨ c.2 = b + (h : ℤ) - 1)) →
      (rectRegion a b (a + (w : ℤ) - 1) (b + (h : ℤ) - 1)).grid_type c = 0) ∧
    (rectRegion a b (a + (w : ℤ) - 1) (b + (h : ℤ) - 1)).tile_count = (w - 2) * (h - 2) := by
  have h1 : a < a + (w : ℤ) - 1 := by omega
  have h2 : b < b + (h : ℤ) - 1 := by omega
  obtain ⟨hxb, hyb⟩ := rect_xbounds a b (a + (w : ℤ) - 1) (b + (h : ℤ) - 1) 0
    [((a, b), (a + (w : ℤ) - 1, b)),
     ((a + (w : ℤ) - 1, b), (a + (w : ℤ) - 1, b + (h : ℤ) - 1)),
     ((a + (w : ℤ) - 1, b + (h : ℤ) - 1), (a, b + (h : ℤ) - 1)),
     ((a, b + (h : ℤ) - 1), (a, b))] [] [] h1.le h2.le
  constructor
  · intro c hc
    unfold rectRegion
    rw [mkRegion_grid_type, hxb, hyb]
    rw [if_pos (by exact ⟨hc.1, hc.2.1, hc.2.2.1, hc.2.2.2.1⟩)]
    rw [if_pos ((rect_bnd_mem a b _ _ h1 h2 c).mpr hc)]
  · unfold rectRegion
    rw [mkRegion_tile_count, mkRegion_interior, hxb, hyb]
    rw [List.filter_congr (fun c hcmem =>
      rect_pred_eq a b (a + (w : ℤ) - 1) (b + (h : ℤ) - 1) h1 h2 c
        ((mem_boxList (a, a + (w : ℤ) - 1) (b, b + (h : ℤ) - 1) c).mp hcmem))]
    rw [rect_strict_count]
    rw [show (b + (h : ℤ) - 1 - b - 1).toNat = h - 2 from by omega,
      show (a + (w : ℤ) - 1 - a - 1).toNat = w - 2 from by omega, Nat.mul_comm]

set_option maxRecDepth 100000 in
/-- C7 witness: the 5-by-4 rectangle at the origin. -/
theorem rect_region_perimeter_and_tile_count_witness :
    (∀ c : Coord,
      ((0 : ℤ) ≤ c.1 ∧ c.1 ≤ 0 + ((5 : ℕ) : ℤ) - 1 ∧ (0 : ℤ) ≤ c.2 ∧
        c.2 ≤ 0 + ((4 : ℕ) : ℤ) - 1 ∧
        (c.1 = 0 ∨ c.1 = 0 + ((5 : ℕ) : ℤ) - 1 ∨ c.2 = 0 ∨ c.2 = 0 + ((4 : ℕ) : ℤ) - 1)) →
      (rectRegion 0 0 (0 + ((5 : ℕ) : ℤ) - 1) (0 + ((4 : ℕ) : ℤ) - 1)).grid_type c = 0) ∧
    (rectRegion 0 0 (0 + ((5 : ℕ) : ℤ) - 1) (0 + ((4 : ℕ) : ℤ) - 1)).tile_count
      = ((5 : ℕ) - 2) * ((4 : ℕ) - 2) :=
  rect_region_perimeter_and_tile_count 0 0 5 4 (by decide) (by decide)

/-- C3 amended: for every constructed region (with in-box boundaries, as
holds for every 45-degree polygon) `average_tile_damage` equals the damage
field summed over ALL region tiles — those whose tile classification is
BOUNDARY or INTERIOR (`grid_type >= 0`), not the interior tiles alone —
divided by `tile_count`, and `tile_count` equals the number of INTERIOR
(`grid_type = 1`) tiles. -/
theorem average_tile_damage_over_all_tiles (vs : List Coord) (pid : ℤ)
    (ie oe be : List (Coord × Coord)) (ext : Coord → ℚ)
    (hb : ∀ c ∈ (mkRegion vs pid ie oe be none).all_boundaries,
      c ∈ boxList (mkRegion vs pid ie oe be none).xbounds
        (mkRegion vs pid ie oe be none).ybounds)
    (ht : (mkRegion vs pid ie oe be none).tile_count ≠ 0) :
    average_tile_damage (update_damage_regions (mkRegion vs pid ie oe be none) ext)
      = some (((((boxList (mkRegion vs pid ie oe be none).xbounds
            (mkRegion vs pid ie oe be none).ybounds).filter
            (fun c => decide (0 ≤ (mkRegion vs pid ie oe be none).grid_type c))).map
            ext).sum)
          / ((mkRegion vs pid ie oe be none).tile_count : ℚ)) ∧
    (mkRegion vs pid ie oe be none).tile_count
      = (((boxList (mkRegion vs pid ie oe be none).xbounds
          (mkRegion vs pid ie oe be none).ybounds).filter
          (fun c => decide ((mkRegion vs pid ie oe be none).grid_type c = 1))).length) := by
  have hmemiff : ∀ c : Coord,
      c ∈ (boxList (mkRegion vs pid ie oe be none).xbounds
          (mkRegion vs pid ie oe be none).ybounds).filter
          (fun c => decide (0 ≤ (mkRegion vs pid ie oe be none).grid_type c))
        ↔ c ∈ (mkRegion vs pid ie oe be none).coordinates := by
    intro c
    rw [List.mem_filter, mkRegion_coordinates, List.mem_append, mkRegion_mem_interior,
      mkRegion_all_boundaries, decide_eq_true_eq]
    constructor
    · rintro ⟨hbox, hge⟩
      rcases (mkRegion_grid_type_nonneg vs pid ie oe be c hbox).mp hge with hbnd | hpip
      · exact Or.inr hbnd
      · by_cases hbnd : c ∈ polygon_boundaries vs
        · exact Or.inr hbnd
        · exact Or.inl ⟨hbox, hbnd, hpip⟩
    · rintro (⟨hbox, hbnd, hpip⟩ | hbnd)
      · exact ⟨hbox, (mkRegion_grid_type_nonneg vs pid ie oe be c hbox).mpr (Or.inr hpip)⟩
      · have hbox := hb c (by rw [mkRegion_all_boundaries]; exact hbnd)
        exact ⟨hbox, (mkRegion_grid_type_nonneg vs pid ie oe be c hbox).mpr (Or.inl hbnd)⟩
  have hperm : List.Perm
      ((boxList (mkRegion vs pid ie oe be none).xbounds
        (mkRegion vs pid ie oe be none).ybounds).filter
        (fun c => decide (0 ≤ (mkRegion vs pid ie oe be none).grid_type c)))
      (mkRegion vs pid ie oe be none).coordinates := by
    refine List.perm_of_nodup_nodup_toFinset_eq ((nodup_boxList _ _).filter _)
      (mkRegion_nodup_coordinates vs pid ie oe be) ?_
    apply List.toFinset.ext
    intro c
    exact hmemiff c
  constructor
  · unfold average_tile_damage update_damage_regions
    simp only []
    rw [if_neg ht]
    have hsum : (((mkRegion vs pid ie oe be none).coordinates.map (fun c => ext c)).sum)
        = ((((boxList (mkRegion vs pid ie oe be none).xbounds
            (mkRegion vs pid ie oe be none).ybounds).filter
            (fun c => decide (0 ≤ (mkRegion vs pid ie oe be none).grid_type c))).map
            ext).sum) :=
      (List.Perm.map ext hperm.symm).sum_eq
    rw [hsum]
  · rw [mkRegion_tile_count, mkRegion_interior]
    congr 1
    apply List.filter_congr
    intro c hcbox
    rw [mkRegion_grid_type, if_pos ((mem_boxList _ _ c).mp hcbox)]
    by_cases hbnd : c ∈ polygon_boundaries vs
    · rw [if_pos hbnd]
      simp [hbnd]
    · rw [if_neg hbnd]
      by_cases hpip : point_inside_polygon c.1 c.2 vs = true
      · rw [if_pos hpip]
        simp [hbnd, hpip]
      · rw [if_neg hpip]
        simp [hbnd, hpip]

set_option maxRecDepth 100000 in
/-- C3 counterexample: on the square region with damage 7 on the boundary
tile `(0, 3)` and 0 elsewhere, `average_tile_damage` returns `7 / 25`,
whereas the damage field summed over exactly the INTERIOR tiles divided by
`tile_count` is 0 — the sum in the code ranges over the boundary tiles
too. -/
theorem average_tile_damage_counts_boundary_cex :
    average_tile_damage (update_damage_regions sq7 dmg7) = some (7 / 25) ∧
    ((((update_damage_regions sq7 dmg7).interior.map
        (fun c => (update_damage_regions sq7 dmg7).damage_regions c)).sum)
      / (((update_damage_regions sq7 dmg7).tile_count : ℕ) : ℚ)) = 0 ∧
    (0, 3) ∈ (update_damage_regions sq7 dmg7).all_boundaries ∧
    (update_damage_regions sq7 dmg7).tile_count = 25 :=
  ⟨by decide, by decide, by decide, by decide⟩

set_option maxRecDepth 100000 in
/-- C3 amended witness: the square region with an external damage slice. -/
theorem average_tile_damage_over_all_tiles_witness :
    average_tile_damage (update_damage_regions
        (mkRegion [(0, 0), (6, 0), (6, 6), (0, 6)] 0 [((0, 0), (6, 0))] [] [] none) dmg7)
      = some (((((boxList
            (mkRegion [(0, 0), (6, 0), (6, 6), (0, 6)] 0 [((0, 0), (6, 0))] [] [] none).xbounds
            (mkRegion [(0, 0), (6, 0), (6, 6), (0, 6)] 0 [((0, 0), (6, 0))] [] [] none).ybounds).filter
            (fun c => decide (0 ≤ (mkRegion [(0, 0), (6, 0), (6, 6), (0, 6)] 0
              [((0, 0), (6, 0))] [] [] none).grid_type c))).map dmg7).sum)
          / (((mkRegion [(0, 0), (6, 0), (6, 6), (0, 6)] 0
            [((0, 0), (6, 0))] [] [] none).tile_count : ℚ))) ∧
    (mkRegion [(0, 0), (6, 0), (6, 6), (0, 6)] 0 [((0, 0), (6, 0))] [] [] none).tile_count
      = (((boxList
          (mkRegion [(0, 0), (6, 0), (6, 6), (0, 6)] 0 [((0, 0), (6, 0))] [] [] none).xbounds
          (mkRegion [(0, 0), (6, 0), (6, 6), (0, 6)] 0 [((0, 0), (6, 0))] [] [] none).ybounds).filter
          (fun c => decide ((mkRegion [(0, 0), (6, 0), (6, 6), (0, 6)] 0
            [((0, 0), (6, 0))] [] [] none).grid_type c = 1))).length) :=
  average_tile_damage_over_all_tiles [(0, 0), (6, 0), (6, 6), (0, 6)] 0
    [((0, 0), (6, 0))] [] [] dmg7 (by decide) (by decide)

/-- A successful lookup in the write log of `init_coordinate_regions`
returns an index below 6 whose region owns a coordinate mapping to the
queried cell. -/
theorem region_writes_find_some (p : ℤ) (regions : List Region) (k : Coord)
    (w : Coord × ℤ)
    (h : (region_writes p regions).reverse.find? (fun e => e.1 == k) = some w) :
    ∃ i : ℕ, i < 6 ∧ w.2 = (i : ℤ) ∧
      ∃ c ∈ (regions.getD i dummyRegion).coordinates,
        npIdx (offset_coord p (offset_coord p c)) = k := by
  have hmem := List.mem_of_find?_eq_some h
  have hpred := List.find?_some h
  rw [List.mem_reverse] at hmem
  simp only [region_writes, List.mem_flatMap, List.mem_map, List.mem_range] at hmem
  obtain ⟨i, hi, c, hc, rfl⟩ := hmem
  exact ⟨i, hi, rfl, c, hc, by simpa using hpred⟩

/-- A failed lookup in the write log of `init_coordinate_regions` means no
region coordinate maps to the queried cell. -/
theorem region_writes_find_none (p : ℤ) (regions : List Region) (k : Coord)
    (h : (region_writes p regions).reverse.find? (fun e => e.1 == k) = none) :
    ∀ i : ℕ, i < 6 → ∀ c ∈ (regions.getD i dummyRegion).coordinates,
      npIdx (offset_coord p (offset_coord p c)) ≠ k := by
  intro i hi c hc heq
  rw [List.find?_eq_none] at h
  have hmem : (npIdx (offset_coord p (offset_coord p c)), (i : ℤ)) ∈
      (region_writes p regions).reverse := by
    rw [List.mem_reverse]
    simp only [region_writes, List.mem_flatMap, List.mem_map, List.mem_range]
    exact ⟨i, hi, c, hc, rfl⟩
  exact h _ hmem (by simp [heq])

/-- `npIdx` is the identity on indices already inside the array window. -/
theorem npIdx_of_nonneg (c : Coord) (h1 : 0 ≤ c.1) (h2 : 0 ≤ c.2) :
    npIdx c = c := by
  simp only [npIdx]
  rw [if_neg (not_lt.mpr h1), if_neg (not_lt.mpr h2)]

/-- `npIdx` wraps the twice-offset enemy y-index up by 14, landing on the
once-offset cell. -/
theorem npIdx_enemy_write (x y : ℤ) (h1 : 0 ≤ x) (h2 : y - 14 - 14 < 0) :
    npIdx (x, y - 14 - 14) = (x, y - 14) := by
  simp only [npIdx]
  rw [if_neg (by omega), if_pos (by omega)]
  simp only [Prod.mk.injEq]
  refine ⟨?_, ?_⟩ <;> first | trivial | omega

/-- `List.any` over a region list decides existential tile membership. -/
theorem regions_any_iff (l : List Region) (c : Coord) :
    (l.any (fun r => decide (c ∈ r.coordinates)) = true) ↔
      ∃ r ∈ l, c ∈ r.coordinates := by
  simp [List.any_eq_true]

/-- Every member of a six-region list sits in a `getD` slot below 6. -/
theorem mem_getD_of_regions (l : List Region) (hl : l.length = 6) (r : Region)
    (hr : r ∈ l) : ∃ i : ℕ, i < 6 ∧ l.getD i dummyRegion = r := by
  obtain ⟨i, hi, heq⟩ := List.mem_iff_getElem.mp hr
  refine ⟨i, by omega, ?_⟩
  rw [List.getD_eq_getElem l dummyRegion (by omega)]
  exact heq

/-- A `getD` slot below 6 of a six-region list is a member of the list. -/
theorem getD_mem_of_lt (l : List Region) (hl : l.length = 6) (i : ℕ)
    (hi : i < 6) : l.getD i dummyRegion ∈ l := by
  rw [List.getD_eq_getElem l dummyRegion (by omega)]
  exact List.getElem_mem _

/-- Members of a half-board window satisfy the window bounds. -/
theorem mem_halfCoords (p : ℤ) (c : Coord) (hc : c ∈ halfCoords p) :
    0 ≤ c.1 ∧ c.1 ≤ 27 ∧ 14 * p ≤ c.2 ∧ c.2 ≤ 14 * p + 13 := by
  simp only [halfCoords, List.mem_flatMap, List.mem_map] at hc
  obtain ⟨x, hx, y, hy, rfl⟩ := hc
  have h1 := (mem_rangeInt 0 27 x).mp hx
  have h2 := (mem_rangeInt (14 * p) (14 * p + 13) y).mp hy
  exact ⟨h1.1, h1.2, h2.1, h2.2⟩

/-- All tile coordinates of the player-0 regions lie in the lower half
window. -/
theorem our_regions_bounded :
    ∀ r ∈ create_our_regions, ∀ c ∈ r.coordinates,
      0 ≤ c.1 ∧ c.1 ≤ 27 ∧ 0 ≤ c.2 ∧ c.2 ≤ 13 := by decide

/-- All tile coordinates of the player-1 regions lie in the upper half
window. -/
theorem enemy_regions_bounded :
    ∀ r ∈ create_enemy_regions, ∀ c ∈ r.coordinates,
      0 ≤ c.1 ∧ c.1 ≤ 27 ∧ 14 ≤ c.2 ∧ c.2 ≤ 27 := by decide

set_option maxRecDepth 10000 in
/-- Table check for the player-0 defense (helper for the lookup claim). -/
theorem get_region_table_ours :
    ∀ c ∈ halfCoords ourDefense.player_id,
      (if ourDefense.regions.any (fun r => decide (c ∈ r.coordinates)) then
        0 ≤ get_region ourDefense c ∧ get_region ourDefense c < 6 ∧
          c ∈ (ourDefense.regions.getD (get_region ourDefense c).toNat dummyRegion).coordinates
      else get_region ourDefense c = -1) := by
  have hreg : ourDefense.regions = create_our_regions := rfl
  have hlen : create_our_regions.length = 6 := rfl
  intro c hc
  have hcb := mem_halfCoords 0 c hc
  norm_num at hcb
  have hkey : npIdx (offset_coord 0 c) = c := by
    rw [show offset_coord 0 c = c from rfl]
    exact npIdx_of_nonneg c hcb.1 hcb.2.2.1
  have hval : get_region ourDefense c =
      (match (region_writes 0 create_our_regions).reverse.find?
          (fun w => w.1 == npIdx (offset_coord 0 c)) with
        | some w => w.2
        | none => -1) := rfl
  rw [hreg]
  rcases hfind : (region_writes 0 create_our_regions).reverse.find?
      (fun w => w.1 == npIdx (offset_coord 0 c)) with _ | w
  · have hv : get_region ourDefense c = -1 := by rw [hval, hfind]
    have hnone := region_writes_find_none 0 create_our_regions _ hfind
    rw [if_neg]
    · exact hv
    · intro hany
      obtain ⟨r, hrmem, hcr⟩ := (regions_any_iff create_our_regions c).mp hany
      obtain ⟨i, hi, hgd⟩ := mem_getD_of_regions create_our_regions hlen r hrmem
      have hwkey : npIdx (offset_coord 0 (offset_coord 0 c)) =
          npIdx (offset_coord 0 c) := rfl
      exact hnone i hi c (by rw [hgd]; exact hcr) hwkey
  · have hv : get_region ourDefense c = w.2 := by rw [hval, hfind]
    obtain ⟨i, hi, hw2, c', hc', hkey'⟩ :=
      region_writes_find_some 0 create_our_regions _ w hfind
    have hmemr : create_our_regions.getD i dummyRegion ∈ create_our_regions :=
      getD_mem_of_lt create_our_regions hlen i hi
    have hb' := our_regions_bounded _ hmemr c' hc'
    have hceq : c' = c := by
      rw [show offset_coord 0 (offset_coord 0 c') = c' from rfl,
        npIdx_of_nonneg c' hb'.1 hb'.2.2.1, hkey] at hkey'
      exact hkey'
    rw [if_pos]
    · refine ⟨?_, ?_, ?_⟩
      · rw [hv, hw2]; exact Int.natCast_nonneg i
      · rw [hv, hw2]; exact_mod_cast hi
      · rw [hv, hw2, Int.toNat_natCast]
        rw [← hceq]
        exact hc'
    · exact (regions_any_iff create_our_regions c).mpr
        ⟨_, hmemr, hceq ▸ hc'⟩

set_option maxRecDepth 10000 in
/-- Table check for the player-1 defense (helper for the lookup claim). -/
theorem get_region_table_enemy :
    ∀ c ∈ halfCoords enemyDefense.player_id,
      (if enemyDefense.regions.any (fun r => decide (c ∈ r.coordinates)) then
        0 ≤ get_region enemyDefense c ∧ get_region enemyDefense c < 6 ∧
          c ∈ (enemyDefense.regions.getD
            (get_region enemyDefense c).toNat dummyRegion).coordinates
      else get_region enemyDefense c = -1) := by
  have hreg : enemyDefense.regions = create_enemy_regions := rfl
  have hlen : create_enemy_regions.length = 6 := rfl
  intro c hc
  have hcb := mem_halfCoords 1 c hc
  norm_num at hcb
  have hkey : npIdx (offset_coord 1 c) = (c.1, c.2 - 14) := by
    rw [show offset_coord 1 c = (c.1, c.2 - 14) from rfl]
    exact npIdx_of_nonneg (c.1, c.2 - 14) hcb.1 (by omega)
  have hval : get_region enemyDefense c =
      (match (region_writes 1 create_enemy_regions).reverse.find?
          (fun w => w.1 == npIdx (offset_coord 1 c)) with
        | some w => w.2
        | none => -1) := rfl
  rw [hreg]
  rcases hfind : (region_writes 1 create_enemy_regions).reverse.find?
      (fun w => w.1 == npIdx (offset_coord 1 c)) with _ | w
  · have hv : get_region enemyDefense c = -1 := by rw [hval, hfind]
    have hnone := region_writes_find_none 1 create_enemy_regions _ hfind
    rw [if_neg]
    · exact hv
    · intro hany
      obtain ⟨r, hrmem, hcr⟩ := (regions_any_iff create_enemy_regions c).mp hany
      obtain ⟨i, hi, hgd⟩ := mem_getD_of_regions create_enemy_regions hlen r hrmem
      have hwkey : npIdx (offset_coord 1 (offset_coord 1 c)) =
          npIdx (offset_coord 1 c) := by
        rw [show offset_coord 1 (offset_coord 1 c) = (c.1, c.2 - 14 - 14) from rfl,
          npIdx_enemy_write c.1 c.2 hcb.1 (by omega), hkey]
      exact hnone i hi c (by rw [hgd]; exact hcr) hwkey
  · have hv : get_region enemyDefense c = w.2 := by rw [hval, hfind]
    obtain ⟨i, hi, hw2, c', hc', hkey'⟩ :=
      region_writes_find_some 1 create_enemy_regions _ w hfind
    have hmemr : create_enemy_regions.getD i dummyRegion ∈ create_enemy_regions :=
      getD_mem_of_lt create_enemy_regions hlen i hi
    have hb' := enemy_regions_bounded _ hmemr c' hc'
    have hceq : c' = c := by
      rw [show offset_coord 1 (offset_coord 1 c') = (c'.1, c'.2 - 14 - 14) from rfl,
        npIdx_enemy_write c'.1 c'.2 hb'.1 (by omega), hkey] at hkey'
      obtain ⟨a, b⟩ := c'
      obtain ⟨a2, b2⟩ := c
      simp only [Prod.mk.injEq] at hkey' ⊢
      exact ⟨hkey'.1, by omega⟩
    rw [if_pos]
    · refine ⟨?_, ?_, ?_⟩
      · rw [hv, hw2]; exact Int.natCast_nonneg i
      · rw [hv, hw2]; exact_mod_cast hi
      · rw [hv, hw2, Int.toNat_natCast]
        rw [← hceq]
        exact hc'
    · exact (regions_any_iff create_enemy_regions c).mpr
        ⟨_, hmemr, hceq ▸ hc'⟩

/-- C9: for both players' `Defense` instances and every in-half coordinate:
when the coordinate belongs to some region's tile set, `get_region` returns
an index in `[0, 6)` whose region contains the coordinate (the double
`offset_coord` in the table build is cancelled by numpy's negative-index
wraparound); when it belongs to no region, `get_region` returns the
sentinel -1. -/
theorem get_region_consistent_with_regions :
    (∀ c ∈ halfCoords ourDefense.player_id,
      (if ourDefense.regions.any (fun r => decide (c ∈ r.coordinates)) then
        0 ≤ get_region ourDefense c ∧ get_region ourDefense c < 6 ∧
          c ∈ (ourDefense.regions.getD (get_region ourDefense c).toNat dummyRegion).coordinates
      else get_region ourDefense c = -1)) ∧
    (∀ c ∈ halfCoords enemyDefense.player_id,
      (if enemyDefense.regions.any (fun r => decide (c ∈ r.coordinates)) then
        0 ≤ get_region enemyDefense c ∧ get_region enemyDefense c < 6 ∧
          c ∈ (enemyDefense.regions.getD
            (get_region enemyDefense c).toNat dummyRegion).coordinates
      else get_region enemyDefense c = -1)) :=
  ⟨get_region_table_ours, get_region_table_enemy⟩

/-- C9 witness: the lookup consistency instantiated at the concrete
coordinates `(0, 13)` (player 0) and `(0, 14)` (player 1). -/
theorem get_region_consistent_with_regions_witness :
    (((0 : ℤ), (13 : ℤ)) ∈ halfCoords ourDefense.player_id ∧
      (if ourDefense.regions.any
          (fun r => decide ((((0 : ℤ), (13 : ℤ)) : Coord) ∈ r.coordinates)) then
        0 ≤ get_region ourDefense (0, 13) ∧ get_region ourDefense (0, 13) < 6 ∧
          ((0 : ℤ), (13 : ℤ)) ∈ (ourDefense.regions.getD
            (get_region ourDefense (0, 13)).toNat dummyRegion).coordinates
      else get_region ourDefense (0, 13) = -1)) ∧
    (((0 : ℤ), (14 : ℤ)) ∈ halfCoords enemyDefense.player_id ∧
      (if enemyDefense.regions.any
          (fun r => decide ((((0 : ℤ), (14 : ℤ)) : Coord) ∈ r.coordinates)) then
        0 ≤ get_region enemyDefense (0, 14) ∧ get_region enemyDefense (0, 14) < 6 ∧
          ((0 : ℤ), (14 : ℤ)) ∈ (enemyDefense.regions.getD
            (get_region enemyDefense (0, 14)).toNat dummyRegion).coordinates
      else get_region enemyDefense (0, 14) = -1)) :=
  ⟨⟨by decide, get_region_consistent_with_regions.1 (0, 13) (by decide)⟩,
    ⟨by decide, get_region_consistent_with_regions.2 (0, 14) (by decide)⟩⟩
